import Mathlib

/-!
Shallow embedding of the server-sentinel repository.

The repository has two source files:
  * src/App.py  — a Gradio UI around a pickled binary classifier, with a
    simulation mode, a live-monitor mode, a start/stop toggle and a timer;
  * src/app.py  — a Flask HTTP backend exposing POST /predict.

Modelling conventions:
  * Python floats are modelled as rationals (ℚ); all arithmetic in the
    repository is exact on the inputs the claims mention.
  * The pickled sklearn model is abstract: a pair of functions
    predict / predict_proba that either return a value or raise, modelled
    with Except String (the String is str(e), the exception message).
    predict gives the row-0 class label (model.predict(df)[0]);
    predict_proba gives the row-0 class-1 probability
    (model.predict_proba(df)[0][1]).
  * psutil is modelled by an explicit environment (SensorEnv): the cpu and
    ram readings, and the sensors_temperatures() result — none when the
    call raises, otherwise an association list from sensor-group name to
    the list of current readings of the entries of that group.
  * Gradio update/skip objects are modelled by the value written to the
    component (gr.skip = leave the component unchanged); the event wiring
    of the Blocks section at the bottom of App.py is modelled by state
    transformers on AppState whose fields are the components each event
    lists as outputs.
-/

/-- The five scalars flowing into one inference call (cpu load, sustained
cpu load, ram, temperature, temperature change) — the TelemetrySample of
the data model.  In App.py these travel as a plain 5-tuple. -/
structure Telemetry where
  cpu : ℚ
  cpu_avg : ℚ
  ram : ℚ
  temp : ℚ
  change : ℚ
  deriving DecidableEq

/-- Environment read by get_live_metrics (App.py lines 21-36).
`sensors = none` models psutil.sensors_temperatures() raising;
`sensors = some temps` maps each sensor group name to the list of the
`.current` readings of its entries (temps[g][i].current). -/
structure SensorEnv where
  cpu : ℚ
  ram : ℚ
  sensors : Option (List (String × List ℚ))

/-- The temperature part of get_live_metrics (App.py lines 25-34):
temp is initialised to 50.0; inside a bare try/except the code takes the
first group among k10temp, amdgpu, coretemp, acpitz that is present and
reads its entry [0].current; any exception (sensors call raising, or
IndexError when the chosen group has no entry) leaves temp = 50.0. -/
def get_temp (sensors : Option (List (String × List ℚ))) : ℚ :=
  match sensors with
  | none => 50
  | some temps =>
    match List.lookup "k10temp" temps with
    | some l => l.head?.getD 50
    | none =>
      match List.lookup "amdgpu" temps with
      | some l => l.head?.getD 50
      | none =>
        match List.lookup "coretemp" temps with
        | some l => l.head?.getD 50
        | none =>
          match List.lookup "acpitz" temps with
          | some l => l.head?.getD 50
          | none => 50

/-- get_live_metrics (App.py lines 21-36): returns
(cpu, cpu, ram, temp, 0.0) — the sustained-cpu slot echoes cpu and the
temperature-change slot is the constant 0.0. -/
def get_live_metrics (env : SensorEnv) : Telemetry :=
  ⟨env.cpu, env.cpu, env.ram, get_temp env.sensors, 0⟩

/-- The fixed 9-field record both apps feed to the classifier, in the
training column order. -/
structure FeatureRecord where
  cpu_percent : ℚ
  ram_percent : ℚ
  cpu_temp : ℚ
  gpu_temp : ℚ
  net_recv_bytes : ℚ
  disk_write_bytes : ℚ
  cpu_rolling_avg : ℚ
  ram_rolling_avg : ℚ
  cpu_temp_change : ℚ
  deriving DecidableEq

/-- The input_df construction of App.py lines 137-147: gpu_temp is
cpu_temp - 15, net_recv_bytes and disk_write_bytes are the constants
1024.0 and 0.0, and ram_rolling_avg echoes ram_percent. -/
def assemble (t : Telemetry) : FeatureRecord :=
  { cpu_percent := t.cpu
    ram_percent := t.ram
    cpu_temp := t.temp
    gpu_temp := t.temp - 15
    net_recv_bytes := 1024
    disk_write_bytes := 0
    cpu_rolling_avg := t.cpu_avg
    ram_rolling_avg := t.ram
    cpu_temp_change := t.change }

/-- The feature extraction of app.py lines 27-75: each key is read with
data.get and a default (cpu_percent 10, ram_percent 30, cpu_temp 50,
cpu_rolling_avg defaults to the cpu value, cpu_temp_change 0); gpu_temp,
net_recv_bytes, disk_write_bytes and ram_rolling_avg are derived
server-side exactly as in App.py. -/
def flask_features (data : List (String × ℚ)) : FeatureRecord :=
  let cpu := (List.lookup "cpu_percent" data).getD 10
  let ram := (List.lookup "ram_percent" data).getD 30
  let cpu_temp := (List.lookup "cpu_temp" data).getD 50
  let gpu_temp := cpu_temp - 15
  let net_recv := 1024
  let disk_write := 0
  let cpu_rolling := (List.lookup "cpu_rolling_avg" data).getD cpu
  let ram_rolling := ram
  let cpu_temp_change := (List.lookup "cpu_temp_change" data).getD 0
  { cpu_percent := cpu
    ram_percent := ram
    cpu_temp := cpu_temp
    gpu_temp := gpu_temp
    net_recv_bytes := net_recv
    disk_write_bytes := disk_write
    cpu_rolling_avg := cpu_rolling
    ram_rolling_avg := ram_rolling
    cpu_temp_change := cpu_temp_change }

/-- The loaded classifier artifact, abstracted: predict may raise
(Except.error carries str(e)) or return the row-0 class label;
predict_proba may raise or return the row-0 class-1 probability. -/
structure SklearnModel where
  predict : FeatureRecord → Except String ℤ
  predict_proba : FeatureRecord → Except String ℚ

/-- The three risk tiers named by the styling branch of App.py. -/
inductive RiskTier
  | NORMAL
  | ELEVATED
  | CRITICAL
  deriving DecidableEq

/-- The branch structure of App.py lines 153-164: prob_val >= 0.80 takes
the CRITICAL branch, elif prob_val >= 0.50 the ELEVATED branch, else the
NORMAL branch. -/
def tier (p : ℚ) : RiskTier :=
  if (0.80 : ℚ) ≤ p then RiskTier.CRITICAL
  else if (0.50 : ℚ) ≤ p then RiskTier.ELEVATED
  else RiskTier.NORMAL

/-- The (color, text, icon) triple chosen by App.py lines 153-164 and
interpolated into the status HTML. -/
def styleFor (p : ℚ) : String × String × String :=
  if (0.80 : ℚ) ≤ p then ("#ff0000", "CRITICAL FAILURE IMMINENT", "🔥")
  else if (0.50 : ℚ) ≤ p then ("#ffaa00", "WARNING: ELEVATED RISK", "⚠️")
  else ("#00cc00", "SYSTEM NORMAL", "✅")

/-- The status HTML written by predict_logic, by its semantic content:
missing is the fixed grey Model Missing heading (line 133); styled is the
coloured block built from styleFor (lines 167-171); error is the red
Error: str(e) div (line 175). -/
inductive Status
  | missing
  | styled (color text icon : String)
  | error (msg : String)
  deriving DecidableEq

/-- The probability textbox value: pct0 is the initial "0%" string
(line 134, kept on the missing-model and error paths); pct p is the
percent string formatted from p (line 172). -/
inductive ProbStr
  | pct0
  | pct (p : ℚ)
  deriving DecidableEq

/-- The 7-tuple predict_logic returns for the UI outputs
[out_status, out_prob, l_cpu, l_cpu_avg, l_ram, l_temp, l_change]. -/
structure UIOut where
  status : Status
  prob : ProbStr
  telemetry : Telemetry
  deriving DecidableEq

/-- Step 1 of predict_logic (App.py lines 127-130): in live-monitor mode
the five scalars come from get_live_metrics, otherwise they are the
slider values verbatim. -/
def resolve_inputs (env : SensorEnv) (mode : String)
    (s_cpu s_cpu_avg s_ram s_temp s_change : ℚ) : Telemetry :=
  if mode = "Live System Monitor" then get_live_metrics env
  else ⟨s_cpu, s_cpu_avg, s_ram, s_temp, s_change⟩

/-- predict_logic (App.py lines 122-177).  With no model the defaults
(Model Missing, "0%") survive; with a model the record is assembled and
predict_proba is called inside try/except: on success the styled status
and the percent string are produced, on an exception the error div is
produced and the probability string stays "0%".  The five resolved
scalars are always echoed to the live readouts. -/
def predict_logic (model : Option SklearnModel) (env : SensorEnv)
    (mode : String) (s_cpu s_cpu_avg s_ram s_temp s_change : ℚ) : UIOut :=
  let t := resolve_inputs env mode s_cpu s_cpu_avg s_ram s_temp s_change
  match model with
  | none => ⟨Status.missing, ProbStr.pct0, t⟩
  | some m =>
    let input_df := assemble t
    match m.predict_proba input_df with
    | Except.ok prob_val =>
      ⟨Status.styled (styleFor prob_val).1 (styleFor prob_val).2.1
        (styleFor prob_val).2.2, ProbStr.pct prob_val, t⟩
    | Except.error e => ⟨Status.error e, ProbStr.pct0, t⟩

/-- The four updates toggle_ui_mode returns (App.py lines 40-57):
panel visibilities, the button label, and timer active=False in both
branches.  The variant styling of the button is presentation only and is
not modelled. -/
structure ToggleOut where
  sim_visible : Bool
  live_visible : Bool
  btn_value : String
  timer_active : Bool
  deriving DecidableEq

/-- toggle_ui_mode (App.py lines 40-57). -/
def toggle_ui_mode (mode : String) : ToggleOut :=
  if mode = "Live System Monitor" then
    ⟨false, true, "Start Live Monitoring", false⟩
  else
    ⟨true, false, "Analyze Simulation", false⟩

/-- The ten outputs of predict_logic_wrapper for
[out_status, out_prob, l_cpu, l_cpu_avg, l_ram, l_temp, l_change,
is_running, btn, timer]: disp = none models gr.skip() on all seven
display outputs. -/
structure WrapperOut where
  disp : Option UIOut
  new_is_running : Bool
  btn_value : String
  timer_active : Bool
  deriving DecidableEq

/-- predict_logic_wrapper (App.py lines 79-109).  Simulation mode: one
predict_logic run, is_running False, timer inactive.  Live mode with
is_running (the Stop click): gr.skip() on the displays, is_running False,
timer inactive.  Live mode not running (the Start click): one immediate
predict_logic run, is_running True, timer active.  (Source line 85 also
computes handle_button_click and discards the result; that computation
never runs predict_logic on the Stop path and is pure in this embedding,
so it is omitted.) -/
def predict_logic_wrapper (model : Option SklearnModel) (env : SensorEnv)
    (mode : String) (is_running : Bool)
    (s_cpu s_cpu_avg s_ram s_temp s_change : ℚ) : WrapperOut :=
  if mode = "Simulation Mode" then
    ⟨some (predict_logic model env mode s_cpu s_cpu_avg s_ram s_temp s_change),
      false, "Analyze Simulation", false⟩
  else
    if is_running then
      ⟨none, false, "Start Live Monitoring", false⟩
    else
      ⟨some (predict_logic model env mode s_cpu s_cpu_avg s_ram s_temp s_change),
        true, "Stop Live Monitoring", true⟩

/-- timer_tick (App.py lines 111-119): only when mode is the live monitor
and is_running does it run predict_logic (slider inputs passed as zeros
and ignored in live mode); otherwise it returns gr.skip() for all seven
outputs, modelled as none. -/
def timer_tick (model : Option SklearnModel) (env : SensorEnv)
    (mode : String) (is_running : Bool) : Option UIOut :=
  if mode = "Live System Monitor" ∧ is_running then
    some (predict_logic model env mode 0 0 0 0 0)
  else none

/-- The per-session UI state: the mode radio, the is_running gr.State,
the timer, the panels, the button label, the two diagnosis outputs, the
five live readouts, and the five sliders read by the button click. -/
structure AppState where
  mode : String
  is_running : Bool
  timer_active : Bool
  sim_visible : Bool
  live_visible : Bool
  btn_label : String
  out_status : Status
  out_prob : ProbStr
  l_cpu : ℚ
  l_cpu_avg : ℚ
  l_ram : ℚ
  l_temp : ℚ
  l_change : ℚ
  s_cpu : ℚ
  s_cpu_avg : ℚ
  s_ram : ℚ
  s_temp : ℚ
  s_change : ℚ
  deriving DecidableEq

/-- Writing a 7-tuple of display values to the output components
[out_status, out_prob, l_cpu, l_cpu_avg, l_ram, l_temp, l_change]. -/
def apply_ui (st : AppState) (u : UIOut) : AppState :=
  { st with
    out_status := u.status
    out_prob := u.prob
    l_cpu := u.telemetry.cpu
    l_cpu_avg := u.telemetry.cpu_avg
    l_ram := u.telemetry.ram
    l_temp := u.telemetry.temp
    l_change := u.telemetry.change }

/-- The mode_switch.change event (App.py lines 226-230): the radio now
holds newMode, and toggle_ui_mode writes to outputs
[sim_panel, live_panel, btn, timer] — and to nothing else; in particular
is_running is not among the outputs. -/
def mode_switch_change (newMode : String) (st : AppState) : AppState :=
  let o := toggle_ui_mode newMode
  { st with
    mode := newMode
    sim_visible := o.sim_visible
    live_visible := o.live_visible
    btn_label := o.btn_value
    timer_active := o.timer_active }

/-- The btn.click event (App.py lines 233-237): predict_logic_wrapper is
fed the mode, is_running and the five sliders, and its ten outputs are
written to [out_status, out_prob, l_cpu, l_cpu_avg, l_ram, l_temp,
l_change, is_running, btn, timer], with gr.skip() leaving a component
unchanged. -/
def btn_click (model : Option SklearnModel) (env : SensorEnv)
    (st : AppState) : AppState :=
  let o := predict_logic_wrapper model env st.mode st.is_running
    st.s_cpu st.s_cpu_avg st.s_ram st.s_temp st.s_change
  let st1 := match o.disp with
    | none => st
    | some u => apply_ui st u
  { st1 with
    is_running := o.new_is_running
    btn_label := o.btn_value
    timer_active := o.timer_active }

/-- The timer.tick event (App.py lines 240-244): timer_tick is fed the
mode and is_running, and its seven outputs are written to the display
components, with gr.skip() leaving them unchanged. -/
def timer_tick_event (model : Option SklearnModel) (env : SensorEnv)
    (st : AppState) : AppState :=
  match timer_tick model env st.mode st.is_running with
  | none => st
  | some u => apply_ui st u

/-- Round to the nearest integer, ties to even — the rounding Python
round() uses. -/
def roundHalfEven (q : ℚ) : ℤ :=
  let f : ℤ := q.floor
  let r : ℚ := q - f
  if r < 1 / 2 then f
  else if 1 / 2 < r then f + 1
  else if f % 2 = 0 then f else f + 1

/-- Python round(q, 1) on exact values. -/
def pyRound1 (q : ℚ) : ℚ :=
  (roundHalfEven (q * 10) : ℚ) / 10

/-- The response of the Flask /predict route: ok carries the JSON body
{status, probability} (HTTP 200); err carries {error: msg} and the HTTP
status code. -/
inductive FlaskResp
  | ok (status : String) (probability : ℚ)
  | err (msg : String) (code : ℕ)
  deriving DecidableEq

/-- The predict route of app.py lines 23-86.  No model: {error: Model not
loaded}, 500.  Otherwise the features are extracted, model.predict then
model.predict_proba are called inside try/except — any exception yields
{error: str(e)}, 400 — and on success the body is
{status: CRITICAL if prediction == 1 else NORMAL,
 probability: round(probability_critical * 100, 1)}. -/
def flask_predict (model : Option SklearnModel)
    (data : List (String × ℚ)) : FlaskResp :=
  match model with
  | none => FlaskResp.err "Model not loaded" 500
  | some m =>
    let input_df := flask_features data
    match m.predict input_df with
    | Except.error e => FlaskResp.err e 400
    | Except.ok prediction =>
      match m.predict_proba input_df with
      | Except.error e => FlaskResp.err e 400
      | Except.ok probability_critical =>
        FlaskResp.ok (if prediction = 1 then "CRITICAL" else "NORMAL")
          (pyRound1 (probability_critical * 100))

/-- A well-behaved sklearn binary classifier built from a probability
function: predict is the argmax of the two class probabilities
(class 1 exactly when the class-1 probability is at least 1/2), and
predict_proba reports that probability; neither raises.  Used to
instantiate the end-to-end checks that speak of "a model predicting p". -/
def of_proba (p : FeatureRecord → ℚ) : SklearnModel :=
  ⟨fun df => Except.ok (if 1 / 2 ≤ p df then 1 else 0),
   fun df => Except.ok (p df)⟩

/-- C1: for every probability p in [0,1], the tiering of App.py lines
153-164 is a total, non-overlapping partition at the 0.50/0.80
boundaries — CRITICAL iff p ≥ 0.80, ELEVATED iff 0.50 ≤ p < 0.80,
NORMAL iff p < 0.50 — and the boundary values 0.50 and 0.80 belong to
the higher tier. -/
theorem tier_partition (p : ℚ) (_h0 : 0 ≤ p) (_h1 : p ≤ 1) :
    (tier p = RiskTier.CRITICAL ↔ (0.80 : ℚ) ≤ p) ∧
    (tier p = RiskTier.ELEVATED ↔ (0.50 : ℚ) ≤ p ∧ p < 0.80) ∧
    (tier p = RiskTier.NORMAL ↔ p < 0.50) ∧
    tier (0.50 : ℚ) = RiskTier.ELEVATED ∧
    tier (0.80 : ℚ) = RiskTier.CRITICAL := by
  refine ⟨?_, ?_, ?_, by norm_num [tier], by norm_num [tier]⟩ <;>
    · unfold tier
      split_ifs with h h2 <;> simp_all <;> linarith

/-- Witness for C1 at p = 0.92. -/
theorem tier_partition_witness :
    (0 : ℚ) ≤ 0.92 ∧ (0.92 : ℚ) ≤ 1 ∧ tier (0.92 : ℚ) = RiskTier.CRITICAL :=
  ⟨by norm_num, by norm_num,
    (tier_partition 0.92 (by norm_num) (by norm_num)).1.mpr (by norm_num)⟩

/-- C2: in both the Gradio app (assemble, App.py lines 137-147) and the
Flask backend (flask_features, app.py lines 34-75), the assembled 9-field
record satisfies gpu_temp = cpu_temp - 15 and ram_rolling_avg =
ram_percent exactly, with the constants net_recv_bytes = 1024 and
disk_write_bytes = 0. -/
theorem assemble_derived_fields :
    (∀ t : Telemetry,
      (assemble t).gpu_temp = (assemble t).cpu_temp - 15 ∧
      (assemble t).ram_rolling_avg = (assemble t).ram_percent ∧
      (assemble t).net_recv_bytes = 1024 ∧
      (assemble t).disk_write_bytes = 0) ∧
    (∀ data : List (String × ℚ),
      (flask_features data).gpu_temp = (flask_features data).cpu_temp - 15 ∧
      (flask_features data).ram_rolling_avg = (flask_features data).ram_percent ∧
      (flask_features data).net_recv_bytes = 1024 ∧
      (flask_features data).disk_write_bytes = 0) :=
  ⟨fun _ => ⟨rfl, rfl, rfl, rfl⟩, fun _ => ⟨rfl, rfl, rfl, rfl⟩⟩

/-- C3: with no model loaded, prediction never raises for any input —
predict_logic (a total function here) renders the fixed Model Missing
status with the "0%" probability display, and flask_predict returns the
{error: Model not loaded} body with HTTP 500. -/
theorem no_model_degrades :
    (∀ (env : SensorEnv) (mode : String) (s1 s2 s3 s4 s5 : ℚ),
      predict_logic none env mode s1 s2 s3 s4 s5 =
        ⟨Status.missing, ProbStr.pct0,
          resolve_inputs env mode s1 s2 s3 s4 s5⟩) ∧
    (∀ data : List (String × ℚ),
      flask_predict none data = FlaskResp.err "Model not loaded" 500) :=
  ⟨fun _ _ _ _ _ _ _ => rfl, fun _ => rfl⟩

/-- C4: end-to-end on POST /predict with a loaded model.  With body
{cpu_percent:95, ram_percent:90, cpu_temp:95, cpu_rolling_avg:90,
cpu_temp_change:3} and a model predicting p = 0.92 the response is
{status: CRITICAL, probability: 92.0}; with body {cpu_percent:5} and a
model predicting p = 0.10 the response is {status: NORMAL,
probability: 10.0} — the probability being the model probability times
100 rounded to one decimal. -/
theorem flask_end_to_end :
    flask_predict (some (of_proba (fun _ => 0.92)))
      [("cpu_percent", 95), ("ram_percent", 90), ("cpu_temp", 95),
       ("cpu_rolling_avg", 90), ("cpu_temp_change", 3)] =
      FlaskResp.ok "CRITICAL" 92 ∧
    flask_predict (some (of_proba (fun _ => 0.10))) [("cpu_percent", 5)] =
      FlaskResp.ok "NORMAL" 10 := by
  constructor <;>
    norm_num [flask_predict, flask_features, of_proba, List.lookup,
      pyRound1, roundHalfEven, show Rat.floor 920 = 920 from rfl,
      show Rat.floor 100 = 100 from rfl]

/-- C5 counterexample: a mode switch does not reset is_running.  The
mode_switch.change event (App.py lines 226-230) writes only
[sim_panel, live_panel, btn, timer]; starting from a live-running state,
switching to Simulation Mode leaves is_running = true. -/
theorem mode_switch_keeps_is_running :
    (mode_switch_change "Simulation Mode"
      ⟨"Live System Monitor", true, true, false, true, "Stop Live Monitoring",
       Status.missing, ProbStr.pct0, 0, 0, 0, 0, 0, 10, 10, 30, 50, 0⟩).is_running
      = true := rfl

/-- C5 (amended): on every mode switch, in either direction and from any
state, the periodic timer is deactivated; the is_running flag is not
written by the switch and retains its prior value. -/
theorem mode_switch_deactivates_timer (newMode : String) (st : AppState) :
    (mode_switch_change newMode st).timer_active = false ∧
    (mode_switch_change newMode st).is_running = st.is_running := by
  unfold mode_switch_change toggle_ui_mode
  by_cases h : newMode = "Live System Monitor" <;> simp [h]

/-- C6: a timer tick delivered while is_running is false, or while the
mode is not the live monitor, leaves the whole UI state unchanged — for
every model and every sensor environment, so no inference call and no
sampling can influence anything. -/
theorem tick_ignored_when_not_running (m : Option SklearnModel)
    (env : SensorEnv) (st : AppState)
    (h : st.is_running = false ∨ st.mode ≠ "Live System Monitor") :
    timer_tick_event m env st = st := by
  have hneg : ¬(st.mode = "Live System Monitor" ∧ st.is_running = true) := by
    rintro ⟨h1, h2⟩
    rcases h with h | h <;> simp_all
  unfold timer_tick_event timer_tick
  rw [if_neg hneg]

/-- Witness for C6: a concrete idle simulation-mode state is untouched by
a tick. -/
theorem tick_ignored_witness :
    timer_tick_event none ⟨0, 0, none⟩
      ⟨"Simulation Mode", false, false, true, false, "Analyze Simulation",
       Status.missing, ProbStr.pct0, 0, 0, 0, 0, 0, 10, 10, 30, 50, 0⟩ =
    ⟨"Simulation Mode", false, false, true, false, "Analyze Simulation",
     Status.missing, ProbStr.pct0, 0, 0, 0, 0, 0, 10, 10, 30, 50, 0⟩ :=
  tick_ignored_when_not_running none ⟨0, 0, none⟩ _ (Or.inl rfl)

/-- C7: an exception raised by the underlying inference call is caught
and surfaced with the original message — as the inline error status (and
the untouched "0%" probability) in the Gradio app, and as the {error}
body with HTTP 400 in the Flask backend, whether predict or
predict_proba raised.  Both functions are total, so nothing propagates
as a crash. -/
theorem inference_error_surfaced :
    (∀ (m : SklearnModel) (env : SensorEnv) (mode : String)
        (s1 s2 s3 s4 s5 : ℚ) (e : String),
      m.predict_proba (assemble (resolve_inputs env mode s1 s2 s3 s4 s5)) =
          Except.error e →
      predict_logic (some m) env mode s1 s2 s3 s4 s5 =
        ⟨Status.error e, ProbStr.pct0,
          resolve_inputs env mode s1 s2 s3 s4 s5⟩) ∧
    (∀ (m : SklearnModel) (data : List (String × ℚ)) (e : String),
      m.predict (flask_features data) = Except.error e →
      flask_predict (some m) data = FlaskResp.err e 400) ∧
    (∀ (m : SklearnModel) (data : List (String × ℚ)) (c : ℤ) (e : String),
      m.predict (flask_features data) = Except.ok c →
      m.predict_proba (flask_features data) = Except.error e →
      flask_predict (some m) data = FlaskResp.err e 400) := by
  refine ⟨?_, ?_, ?_⟩
  · intro m env mode s1 s2 s3 s4 s5 e h
    simp [predict_logic, h]
  · intro m data e h
    simp [flask_predict, h]
  · intro m data c e h1 h2
    simp [flask_predict, h1, h2]

/-- Witness for C7: a model whose predict_proba raises "boom" yields the
inline error status in the Gradio app. -/
theorem inference_error_witness :
    predict_logic (some ⟨fun _ => Except.ok 0, fun _ => Except.error "boom"⟩)
      ⟨0, 0, none⟩ "Simulation Mode" 1 2 3 4 5 =
    ⟨Status.error "boom", ProbStr.pct0,
      resolve_inputs ⟨0, 0, none⟩ "Simulation Mode" 1 2 3 4 5⟩ :=
  inference_error_surfaced.1 _ _ _ _ _ _ _ _ _ rfl

/-- C8: the temperature lookup tries k10temp, amdgpu, coretemp, acpitz in
that fixed priority order and uses the first present group's first
reading; when the sensors call raises, when no group is present, or when
the chosen group has no entry, it yields 50.0; and get_live_metrics
(a total function here) always returns the sample
(cpu, cpu, ram, temperature, 0) without failing its caller. -/
theorem sensor_fallback :
    get_temp none = 50 ∧
    (∀ temps : List (String × List ℚ),
      List.lookup "k10temp" temps = none →
      List.lookup "amdgpu" temps = none →
      List.lookup "coretemp" temps = none →
      List.lookup "acpitz" temps = none →
      get_temp (some temps) = 50) ∧
    (∀ (temps : List (String × List ℚ)) (t : ℚ) (l : List ℚ),
      List.lookup "k10temp" temps = some (t :: l) →
      get_temp (some temps) = t) ∧
    (∀ (temps : List (String × List ℚ)) (t : ℚ) (l : List ℚ),
      List.lookup "k10temp" temps = none →
      List.lookup "amdgpu" temps = some (t :: l) →
      get_temp (some temps) = t) ∧
    (∀ (temps : List (String × List ℚ)) (t : ℚ) (l : List ℚ),
      List.lookup "k10temp" temps = none →
      List.lookup "amdgpu" temps = none →
      List.lookup "coretemp" temps = some (t :: l) →
      get_temp (some temps) = t) ∧
    (∀ (temps : List (String × List ℚ)) (t : ℚ) (l : List ℚ),
      List.lookup "k10temp" temps = none →
      List.lookup "amdgpu" temps = none →
      List.lookup "coretemp" temps = none →
      List.lookup "acpitz" temps = some (t :: l) →
      get_temp (some temps) = t) ∧
    (∀ temps : List (String × List ℚ),
      List.lookup "k10temp" temps = some [] →
      get_temp (some temps) = 50) ∧
    (∀ env : SensorEnv,
      get_live_metrics env =
        ⟨env.cpu, env.cpu, env.ram, get_temp env.sensors, 0⟩) := by
  refine ⟨rfl, ?_, ?_, ?_, ?_, ?_, ?_, fun env => rfl⟩
  · intro temps h1 h2 h3 h4
    simp only [get_temp, h1, h2, h3, h4]
  · intro temps t l h1
    simp only [get_temp, h1, Option.getD, List.head?]
  · intro temps t l h1 h2
    simp only [get_temp, h1, h2, Option.getD, List.head?]
  · intro temps t l h1 h2 h3
    simp only [get_temp, h1, h2, h3, Option.getD, List.head?]
  · intro temps t l h1 h2 h3 h4
    simp only [get_temp, h1, h2, h3, h4, Option.getD, List.head?]
  · intro temps h1
    simp only [get_temp, h1, Option.getD, List.head?]

/-- Witness for C8: with only an amdgpu group present its first reading
is used, and a raising sensors call yields 50. -/
theorem sensor_fallback_witness :
    get_temp (some [("amdgpu", [61])]) = 61 ∧ get_temp none = 50 :=
  ⟨sensor_fallback.2.2.2.1 [("amdgpu", [61])] 61 [] rfl rfl,
    sensor_fallback.1⟩

/-- C9: a button click in the live-running state (the Stop action) only
deactivates the timer, resets is_running and relabels the button; the
seven display outputs keep their prior values, and the result is the
same for every model and sensor environment, so no re-sampling and no
inference takes place. -/
theorem stop_click_frame (m : Option SklearnModel) (env : SensorEnv)
    (st : AppState) (h1 : st.mode = "Live System Monitor")
    (h2 : st.is_running = true) :
    btn_click m env st =
      { st with is_running := false, btn_label := "Start Live Monitoring",
                timer_active := false } := by
  have hw : predict_logic_wrapper m env st.mode st.is_running
      st.s_cpu st.s_cpu_avg st.s_ram st.s_temp st.s_change =
      ⟨none, false, "Start Live Monitoring", false⟩ := by
    rw [h1, h2]
    rfl
  unfold btn_click
  rw [hw]

/-- Witness for C9: stopping from a concrete live-running state. -/
theorem stop_click_witness :
    btn_click none ⟨0, 0, none⟩
      ⟨"Live System Monitor", true, true, false, true, "Stop Live Monitoring",
       Status.missing, ProbStr.pct0, 0, 0, 0, 0, 0, 10, 10, 30, 50, 0⟩ =
      ⟨"Live System Monitor", false, false, false, true,
       "Start Live Monitoring", Status.missing, ProbStr.pct0,
       0, 0, 0, 0, 0, 10, 10, 30, 50, 0⟩ :=
  stop_click_frame none ⟨0, 0, none⟩ _ rfl rfl

/-- C10: the Flask status field is computed from the class prediction,
not from the probability: whenever predict returns c and predict_proba
returns p, the response status is CRITICAL exactly when c = 1, and a
model whose predict returns 0 while predict_proba returns 0.92 produces
{status: NORMAL, probability: 92.0} even though 0.92 tiers as
CRITICAL. -/
theorem status_from_predict :
    (∀ (m : SklearnModel) (data : List (String × ℚ)) (c : ℤ) (p : ℚ),
      m.predict (flask_features data) = Except.ok c →
      m.predict_proba (flask_features data) = Except.ok p →
      flask_predict (some m) data =
        FlaskResp.ok (if c = 1 then "CRITICAL" else "NORMAL")
          (pyRound1 (p * 100))) ∧
    flask_predict (some ⟨fun _ => Except.ok 0, fun _ => Except.ok 0.92⟩) [] =
      FlaskResp.ok "NORMAL" 92 ∧
    tier (0.92 : ℚ) = RiskTier.CRITICAL := by
  refine ⟨?_, ?_, by norm_num [tier]⟩
  · intro m data c p h1 h2
    simp [flask_predict, h1, h2]
  · norm_num [flask_predict, flask_features, List.lookup, pyRound1,
      roundHalfEven, show Rat.floor 920 = 920 from rfl]

/-- Witness for C10: a consistent model with predict = 1 and
predict_proba = 0.25 yields status CRITICAL. -/
theorem status_from_predict_witness :
    flask_predict (some ⟨fun _ => Except.ok 1, fun _ => Except.ok 0.25⟩) [] =
      FlaskResp.ok "CRITICAL" (pyRound1 (0.25 * 100)) :=
  status_from_predict.1 ⟨fun _ => Except.ok 1, fun _ => Except.ok 0.25⟩
    [] 1 0.25 rfl rfl
